import Mathlib

/-!
# Verification of the Unfold MVP core (story store, provider resolution, chat/editor UI)

Shallow embedding of the repository's core behaviour:

* the versioned story-document store (`StoryStore`, `StoryService`) and its
  bounded history protocol,
* provider resolution for the multi-provider chat relay,
* the chat UI (`Chat` component in `frontend/src/App.js`) send/finish protocol,
* the story editor (`StoryEditor` component) client-id handling and save
  protocol.

The backend module `backend/server.py` is not part of the available sources;
the store, service and provider-registry definitions below are modelled from
the specification (and the concrete document shape documented in
`IMPLEMENTATION_PLAN.md`).  The frontend definitions are translated directly
from `frontend/src/App.js` and the `StoryEditor` / `CoachChat` components.
-/

/-- The fixed five section keys of a story document
(`defaultSections` in `StoryEditor`, and the spec's fixed section-key set). -/
def sectionKeys : List String :=
  ["guidingNarrative", "turningPoints", "emergingThemes", "uniqueStrengths", "futureVision"]

/-- Sections are a finite mapping from keys to free text, represented as an
association list (documents are JSON objects). -/
abbrev SectionsMap := List (String × String)

/-- The default sections: all five fixed keys mapped to the empty string
(`defaultSections` in `StoryEditor`, and the document shape in
`IMPLEMENTATION_PLAN.md`). -/
def defaultSections : SectionsMap := sectionKeys.map (fun k => (k, ""))

/-- One bounded-history entry: a snapshot of the pre-update state
`{version, resonanceScore, sections, timestamp}`. -/
structure HistoryEntry where
  version : Nat
  resonanceScore : ℚ
  sections : SectionsMap
  timestamp : Nat
deriving DecidableEq

/-- A story document, as specified in the data model and shown concretely in
`IMPLEMENTATION_PLAN.md`.  Resonance scores are modelled as rationals
(the comparisons the code performs on them are exact). -/
structure StoryDocument where
  storyId : String
  clientId : String
  version : Nat
  sections : SectionsMap
  resonanceScore : ℚ
  createdAt : Nat
  updatedAt : Nat
  history : List HistoryEntry
deriving DecidableEq

/-- The persistent collection of story documents (the spec treats the store
engine as a key-value document collection). -/
abbrev Store := List StoryDocument

/-- Errors of the story endpoints (spec taxonomy). -/
inductive StoreError where
  | notFound
  | authorization
  | validation
deriving DecidableEq

/-- Keep the last `n` entries of a list, dropping the oldest (front) first. -/
def lastN (n : Nat) (l : List α) : List α := l.drop (l.length - n)

/-- The snapshot of a document's pre-update state appended to history on save. -/
def StoryDocument.snapshot (d : StoryDocument) (now : Nat) : HistoryEntry :=
  { version := d.version, resonanceScore := d.resonanceScore,
    sections := d.sections, timestamp := now }

/-- Modelled from the spec: the successful-save update of `StoryStore.save`
(`backend/server.py` is not among the sources).  Appends the pre-update
snapshot to history, truncates history to the last 10 entries (drop oldest),
replaces `sections` and `resonanceScore` wholesale, increments `version` by
exactly 1 and updates `updatedAt`. -/
def StoryDocument.applySave (d : StoryDocument) (sections : SectionsMap)
    (resonanceScore : ℚ) (now : Nat) : StoryDocument :=
  { d with
    sections := sections
    resonanceScore := resonanceScore
    version := d.version + 1
    updatedAt := now
    history := lastN 10 (d.history ++ [d.snapshot now]) }

/-- Replace the first document with the given `storyId` (the store's put for
an existing key). -/
def replaceFirst (st : Store) (storyId : String) (d' : StoryDocument) : Store :=
  match st with
  | [] => []
  | x :: xs => if x.storyId == storyId then d' :: xs else x :: replaceFirst xs storyId d'

/-- Modelled from the spec: `StoryStore.initOrFetch` (`backend/server.py` is
not among the sources).  If no document exists for `clientId`, create one with
`version = 1`, the five empty sections, resonance defaulted to `7.0` and empty
history, and persist it; else return the existing document unchanged. -/
def StoryStore.initOrFetch (st : Store) (clientId newStoryId : String) (now : Nat) :
    Store × StoryDocument :=
  match st.find? (fun d => d.clientId == clientId) with
  | some d => (st, d)
  | none =>
    let d : StoryDocument :=
      { storyId := newStoryId, clientId := clientId, version := 1,
        sections := defaultSections, resonanceScore := 7,
        createdAt := now, updatedAt := now, history := [] }
    (st ++ [d], d)

/-- Modelled from the spec: `StoryStore.fetchById` (`backend/server.py` is not
among the sources). -/
def StoryStore.fetchById (st : Store) (storyId : String) :
    Except StoreError StoryDocument :=
  match st.find? (fun d => d.storyId == storyId) with
  | some d => .ok d
  | none => .error .notFound

/-- Modelled from the spec: `StoryStore.save` (`backend/server.py` is not
among the sources).  Fails with `NotFoundError` when `storyId` does not
resolve, with an `AuthorizationError`-class condition when the supplied
`clientId` does not own the document; on success applies the snapshot/replace/
increment update and persists the new document. -/
def StoryStore.save (st : Store) (storyId clientId : String)
    (sections : SectionsMap) (resonanceScore : ℚ) (now : Nat) :
    Except StoreError (Store × StoryDocument) :=
  match st.find? (fun d => d.storyId == storyId) with
  | none => .error .notFound
  | some d =>
    if d.clientId ≠ clientId then .error .authorization
    else
      let d' := d.applySave sections resonanceScore now
      .ok (replaceFirst st storyId d', d')

/-- `true` iff every key of the supplied sections belongs to the fixed
five-key set. -/
def validKeys (sections : SectionsMap) : Bool :=
  sections.all (fun kv => sectionKeys.contains kv.1)

/-- Modelled from the spec: `StoryService.save` (`backend/server.py` is not
among the sources).  Thin validation wrapper: rejects a `resonanceScore`
outside `[0,10]` or a section key outside the fixed five-key set with
`ValidationError`, then delegates to `StoryStore.save`. -/
def StoryService.save (st : Store) (storyId clientId : String)
    (sections : SectionsMap) (resonanceScore : ℚ) (now : Nat) :
    Except StoreError (Store × StoryDocument) :=
  if resonanceScore < 0 ∨ resonanceScore > 10 then .error .validation
  else if ¬ validKeys sections then .error .validation
  else StoryStore.save st storyId clientId sections resonanceScore now

/-- A save operation's input: the supplied sections, resonance score and the
timestamp at which the save runs. -/
structure SaveInput where
  sections : SectionsMap
  resonanceScore : ℚ
  timestamp : Nat
deriving DecidableEq

/-- Iterate the successful-save update over a list of save inputs. -/
def applySaves (d : StoryDocument) : List SaveInput → StoryDocument
  | [] => d
  | i :: is => applySaves (d.applySave i.sections i.resonanceScore i.timestamp) is

/-- The untruncated list of history snapshots a sequence of saves appends:
the `k`-th element records the document state immediately before the `k`-th
save. -/
def preSnapshots (d : StoryDocument) : List SaveInput → List HistoryEntry
  | [] => []
  | i :: is =>
    d.snapshot i.timestamp ::
      preSnapshots (d.applySave i.sections i.resonanceScore i.timestamp) is

/-! ## Bounded-history lemmas -/

theorem lastN_of_le {l : List α} {n : Nat} (h : l.length ≤ n) : lastN n l = l := by
  simp [lastN, Nat.sub_eq_zero_of_le h]

theorem lastN_length_le (n : Nat) (l : List α) : (lastN n l).length ≤ n := by
  simp [lastN]; omega

/-- Truncating before appending more entries and truncating once at the end
agree: the entries a first truncation drops would have been dropped anyway. -/
theorem lastN_append_lastN (n : Nat) (xs ys : List α) :
    lastN n (lastN n xs ++ ys) = lastN n (xs ++ ys) := by
  rcases le_or_lt xs.length n with h | h
  · rw [lastN_of_le h]
  · unfold lastN
    rw [← List.drop_append_of_le_length (Nat.sub_le xs.length n), List.drop_drop]
    congr 1
    simp only [List.length_drop, List.length_append]
    omega

theorem applySaves_version (inputs : List SaveInput) (d : StoryDocument) :
    (applySaves d inputs).version = d.version + inputs.length := by
  induction inputs generalizing d with
  | nil => simp [applySaves]
  | cons i is ih =>
    simp [applySaves, ih, StoryDocument.applySave]
    omega

theorem preSnapshots_length (inputs : List SaveInput) (d : StoryDocument) :
    (preSnapshots d inputs).length = inputs.length := by
  induction inputs generalizing d with
  | nil => rfl
  | cons i is ih => simp [preSnapshots, ih]

theorem applySaves_history (inputs : List SaveInput) (d : StoryDocument)
    (hd : d.history.length ≤ 10) :
    (applySaves d inputs).history = lastN 10 (d.history ++ preSnapshots d inputs) := by
  induction inputs generalizing d with
  | nil => simp [applySaves, preSnapshots, lastN_of_le hd]
  | cons i is ih =>
    have h1 : (d.applySave i.sections i.resonanceScore i.timestamp).history
        = lastN 10 (d.history ++ [d.snapshot i.timestamp]) := rfl
    have h2 : (d.applySave i.sections i.resonanceScore i.timestamp).history.length ≤ 10 := by
      rw [h1]; exact lastN_length_le _ _
    simp only [applySaves]
    rw [ih _ h2, h1, lastN_append_lastN]
    simp [preSnapshots]

theorem preSnapshots_getElem? (inputs : List SaveInput) (d : StoryDocument)
    (k : Nat) (i : SaveInput) (h : inputs[k]? = some i) :
    (preSnapshots d inputs)[k]? =
      some ((applySaves d (inputs.take k)).snapshot i.timestamp) := by
  induction inputs generalizing d k with
  | nil => simp at h
  | cons j js ih =>
    cases k with
    | zero =>
      simp only [List.getElem?_cons_zero, Option.some.injEq] at h
      subst h
      simp [preSnapshots, applySaves]
    | succ k =>
      simp only [List.getElem?_cons_succ] at h
      simp only [preSnapshots, List.getElem?_cons_succ, List.take_succ_cons, applySaves]
      exact ih _ _ h

theorem preSnapshots_version (inputs : List SaveInput) (d : StoryDocument)
    (k : Nat) (e : HistoryEntry) (h : (preSnapshots d inputs)[k]? = some e) :
    e.version = d.version + k := by
  induction inputs generalizing d k with
  | nil => simp [preSnapshots] at h
  | cons j js ih =>
    cases k with
    | zero =>
      simp only [preSnapshots, List.getElem?_cons_zero, Option.some.injEq] at h
      subst h
      rfl
    | succ k =>
      simp only [preSnapshots, List.getElem?_cons_succ] at h
      have := ih _ _ h
      simp only [StoryDocument.applySave] at this
      omega

/-- **C1**: for every story document fresh from init (version 1, empty
history) and every sequence of N successful save operations, the final
version is `1 + N`; the history has `min N 10` entries and equals the last 10
of the pre-save snapshots (oldest dropped first once 10 is exceeded); the
`k`-th snapshot records the document exactly as it was immediately before the
`k`-th save; and the history entries carry strictly increasing versions,
oldest to newest, entry `k` recording pre-save version `1 + (N - 10) + k`. -/
theorem c1_save_sequence (d0 : StoryDocument) (inputs : List SaveInput)
    (hv : d0.version = 1) (hh : d0.history = []) :
    (applySaves d0 inputs).version = 1 + inputs.length
    ∧ (applySaves d0 inputs).history.length = min inputs.length 10
    ∧ (applySaves d0 inputs).history = lastN 10 (preSnapshots d0 inputs)
    ∧ (∀ k i, inputs[k]? = some i →
        (preSnapshots d0 inputs)[k]? =
          some ((applySaves d0 (inputs.take k)).snapshot i.timestamp))
    ∧ (∀ k e, (applySaves d0 inputs).history[k]? = some e →
        e.version = 1 + (inputs.length - 10) + k)
    ∧ (applySaves d0 inputs).history.Pairwise (fun a b => a.version < b.version) := by
  have hlen0 : d0.history.length ≤ 10 := by rw [hh]; simp
  have hhist : (applySaves d0 inputs).history = lastN 10 (preSnapshots d0 inputs) := by
    rw [applySaves_history inputs d0 hlen0, hh, List.nil_append]
  have hplen : (preSnapshots d0 inputs).length = inputs.length :=
    preSnapshots_length inputs d0
  have hver : ∀ k e, (applySaves d0 inputs).history[k]? = some e →
      e.version = 1 + (inputs.length - 10) + k := by
    intro k e he
    rw [hhist] at he
    unfold lastN at he
    rw [List.getElem?_drop, hplen] at he
    have hk : inputs.length - 10 + k < (preSnapshots d0 inputs).length := by
      by_contra hc
      rw [List.getElem?_eq_none (by omega)] at he
      exact Option.noConfusion he
    have hv2 := preSnapshots_version inputs d0 _ _ he
    rw [hv] at hv2
    rw [hplen] at hk
    omega
  refine ⟨?_, ?_, hhist, ?_, hver, ?_⟩
  · rw [applySaves_version, hv]
  · rw [hhist]
    unfold lastN
    rw [List.length_drop, hplen]
    omega
  · exact fun k i h => preSnapshots_getElem? inputs d0 k i h
  · rw [List.pairwise_iff_getElem]
    intro a b ha hb hab
    have hga := List.getElem?_eq_getElem ha
    have hgb := List.getElem?_eq_getElem hb
    have h1 := hver a _ hga
    have h2 := hver b _ hgb
    omega

/-- Concrete save inputs used by the `c1_save_sequence` witness. -/
def c1inputs : List SaveInput :=
  [{ sections := [("guidingNarrative", "a")], resonanceScore := 4, timestamp := 5 },
   { sections := [("futureVision", "b")], resonanceScore := 9, timestamp := 6 }]

/-- Concrete fresh document used by the `c1_save_sequence` witness. -/
def c1d0 : StoryDocument := (StoryStore.initOrFetch [] "client-1" "story-1" 3).2

/-- Witness for `c1_save_sequence` at a concrete fresh document and a
sequence of two saves. -/
theorem c1_save_sequence_witness :
    (c1d0.version = 1 ∧ c1d0.history = [])
    ∧ ((applySaves c1d0 c1inputs).version = 1 + c1inputs.length
    ∧ (applySaves c1d0 c1inputs).history.length = min c1inputs.length 10
    ∧ (applySaves c1d0 c1inputs).history = lastN 10 (preSnapshots c1d0 c1inputs)
    ∧ (∀ k i, c1inputs[k]? = some i →
        (preSnapshots c1d0 c1inputs)[k]? =
          some ((applySaves c1d0 (c1inputs.take k)).snapshot i.timestamp))
    ∧ (∀ k e, (applySaves c1d0 c1inputs).history[k]? = some e →
        e.version = 1 + (c1inputs.length - 10) + k)
    ∧ (applySaves c1d0 c1inputs).history.Pairwise (fun a b => a.version < b.version)) :=
  ⟨⟨rfl, rfl⟩, c1_save_sequence c1d0 c1inputs rfl rfl⟩

/-! ## Init-or-fetch, round-trip and validation -/

/-- **C2**: the first `initOrFetch` for a clientId creates exactly one
document with version 1, the five empty sections, resonance defaulted to 7.0
and empty history; a subsequent `initOrFetch` with the same clientId returns
that existing document unchanged (same storyId, same version) and leaves the
store unchanged — `initOrFetch` is idempotent. -/
theorem c2_initOrFetch_idempotent (st : Store) (cid sid sid' : String)
    (now now' : Nat) (h : st.find? (fun d => d.clientId == cid) = none) :
    ((StoryStore.initOrFetch st cid sid now).2.version = 1
      ∧ (StoryStore.initOrFetch st cid sid now).2.storyId = sid
      ∧ (StoryStore.initOrFetch st cid sid now).2.clientId = cid
      ∧ (StoryStore.initOrFetch st cid sid now).2.sections = defaultSections
      ∧ (StoryStore.initOrFetch st cid sid now).2.resonanceScore = 7
      ∧ (StoryStore.initOrFetch st cid sid now).2.history = [])
    ∧ (StoryStore.initOrFetch st cid sid now).1
        = st ++ [(StoryStore.initOrFetch st cid sid now).2]
    ∧ StoryStore.initOrFetch (StoryStore.initOrFetch st cid sid now).1 cid sid' now'
        = StoryStore.initOrFetch st cid sid now := by
  have h1 : StoryStore.initOrFetch st cid sid now
      = (st ++ [{ storyId := sid, clientId := cid, version := 1,
                  sections := defaultSections, resonanceScore := 7,
                  createdAt := now, updatedAt := now, history := [] }],
         { storyId := sid, clientId := cid, version := 1,
           sections := defaultSections, resonanceScore := 7,
           createdAt := now, updatedAt := now, history := [] }) := by
    simp [StoryStore.initOrFetch, h]
  rw [h1]
  refine ⟨⟨rfl, rfl, rfl, rfl, rfl, rfl⟩, rfl, ?_⟩
  simp [StoryStore.initOrFetch, List.find?_append, h]

/-- Witness for `c2_initOrFetch_idempotent` on the empty store. -/
theorem c2_initOrFetch_idempotent_witness :
    ([] : Store).find? (fun d => d.clientId == "client-1") = none
    ∧ (((StoryStore.initOrFetch [] "client-1" "story-1" 0).2.version = 1
      ∧ (StoryStore.initOrFetch [] "client-1" "story-1" 0).2.storyId = "story-1"
      ∧ (StoryStore.initOrFetch [] "client-1" "story-1" 0).2.clientId = "client-1"
      ∧ (StoryStore.initOrFetch [] "client-1" "story-1" 0).2.sections = defaultSections
      ∧ (StoryStore.initOrFetch [] "client-1" "story-1" 0).2.resonanceScore = 7
      ∧ (StoryStore.initOrFetch [] "client-1" "story-1" 0).2.history = [])
    ∧ (StoryStore.initOrFetch [] "client-1" "story-1" 0).1
        = [] ++ [(StoryStore.initOrFetch [] "client-1" "story-1" 0).2]
    ∧ StoryStore.initOrFetch (StoryStore.initOrFetch [] "client-1" "story-1" 0).1
        "client-1" "story-2" 1
        = StoryStore.initOrFetch [] "client-1" "story-1" 0) :=
  ⟨rfl, c2_initOrFetch_idempotent [] "client-1" "story-1" "story-2" 0 1 rfl⟩

/-- Replacing the first document carrying a storyId makes it the document a
fetch by that storyId finds. -/
theorem find?_replaceFirst (st : Store) (sid : String) (d' : StoryDocument)
    (hfound : (st.find? (fun x => x.storyId == sid)).isSome)
    (hd' : d'.storyId = sid) :
    (replaceFirst st sid d').find? (fun x => x.storyId == sid) = some d' := by
  induction st with
  | nil => simp at hfound
  | cons x xs ih =>
    by_cases hx : (x.storyId == sid) = true
    · simp [replaceFirst, hx, List.find?_cons, hd']
    · rw [List.find?_cons] at hfound
      simp only [hx] at hfound
      simp only [replaceFirst, hx, if_false, Bool.false_eq_true]
      rw [List.find?_cons]
      simp only [hx]
      exact ih hfound

/-- **C3**: a successful `StoryService.save` followed by `fetchById` on the
same storyId returns the saved document, whose sections are exactly the
supplied mapping and whose resonanceScore is exactly the supplied score —
whole-value replacement, no merging with values stored before the save. -/
theorem c3_save_fetch_roundtrip (st : Store) (sid cid : String)
    (S : SectionsMap) (r : ℚ) (now : Nat) (st' : Store) (d' : StoryDocument)
    (h : StoryService.save st sid cid S r now = .ok (st', d')) :
    StoryStore.fetchById st' sid = .ok d'
    ∧ d'.sections = S ∧ d'.resonanceScore = r := by
  unfold StoryService.save at h
  split at h
  · exact absurd h (by simp)
  · split at h
    · exact absurd h (by simp)
    · unfold StoryStore.save at h
      split at h
      · exact absurd h (by simp)
      · rename_i d heq
        split at h
        · exact absurd h (by simp)
        · simp only [Except.ok.injEq, Prod.mk.injEq] at h
          have hsid : d.storyId = sid := by
            have := List.find?_some heq
            simpa using this
          have hsid' : (d.applySave S r now).storyId = sid := hsid
          rw [← h.1, ← h.2]
          refine ⟨?_, rfl, rfl⟩
          unfold StoryStore.fetchById
          rw [find?_replaceFirst st sid _ (by rw [heq]; rfl) hsid']

/-- Concrete one-document store used by the `c3_save_fetch_roundtrip` witness. -/
def c3store : Store := [(StoryStore.initOrFetch [] "client-1" "story-1" 0).2]

/-- Concrete sections used by the `c3_save_fetch_roundtrip` witness. -/
def c3sections : SectionsMap := [("guidingNarrative", "g"), ("futureVision", "f")]

/-- Concrete post-save document used by the `c3_save_fetch_roundtrip` witness. -/
def c3doc : StoryDocument :=
  (StoryStore.initOrFetch [] "client-1" "story-1" 0).2.applySave c3sections 5 1

/-- Witness for `c3_save_fetch_roundtrip` at a concrete save. -/
theorem c3_save_fetch_roundtrip_witness :
    StoryService.save c3store "story-1" "client-1" c3sections 5 1 = .ok ([c3doc], c3doc)
    ∧ (StoryStore.fetchById [c3doc] "story-1" = .ok c3doc
       ∧ c3doc.sections = c3sections ∧ c3doc.resonanceScore = 5) := by
  have h : StoryService.save c3store "story-1" "client-1" c3sections 5 1
      = .ok ([c3doc], c3doc) := by rfl
  exact ⟨h, c3_save_fetch_roundtrip c3store "story-1" "client-1" c3sections 5 1 [c3doc] c3doc h⟩

/-- **C5**: `StoryService` accepts a save request exactly when the
resonanceScore lies in `[0,10]` inclusive and every section key belongs to the
fixed five-key set (it then delegates to `StoryStore.save`); a request with a
score outside `[0,10]` or a foreign section key fails with `ValidationError`
without being delegated — the result is the validation error no matter what
the store contains. -/
theorem c5_save_validation (st : Store) (sid cid : String) (S : SectionsMap)
    (r : ℚ) (now : Nat) :
    ((0 ≤ r ∧ r ≤ 10 ∧ validKeys S = true) →
        StoryService.save st sid cid S r now = StoryStore.save st sid cid S r now)
    ∧ ((r < 0 ∨ 10 < r ∨ validKeys S = false) →
        StoryService.save st sid cid S r now = .error .validation) := by
  constructor
  · rintro ⟨h0, h10, hk⟩
    simp [StoryService.save, not_lt.mpr h0, not_lt.mpr h10, hk]
  · rintro (h | h | h)
    · simp [StoryService.save, h]
    · simp [StoryService.save, h]
    · simp [StoryService.save, h]

/-- Witness for `c5_save_validation`: exactly 0 and exactly 10 are accepted
(the request is delegated), while `-0.01`, `10.01` and a foreign section key
are rejected with `ValidationError`. -/
theorem c5_save_validation_witness :
    StoryService.save [] "s" "c" defaultSections 0 0
        = StoryStore.save [] "s" "c" defaultSections 0 0
    ∧ StoryService.save [] "s" "c" defaultSections 10 0
        = StoryStore.save [] "s" "c" defaultSections 10 0
    ∧ StoryService.save [] "s" "c" defaultSections (-1/100) 0 = .error .validation
    ∧ StoryService.save [] "s" "c" defaultSections (1001/100) 0 = .error .validation
    ∧ StoryService.save [] "s" "c" [("sixthSection", "x")] 5 0 = .error .validation :=
  ⟨(c5_save_validation [] "s" "c" defaultSections 0 0).1
      ⟨by norm_num, by norm_num, by decide⟩,
   (c5_save_validation [] "s" "c" defaultSections 10 0).1
      ⟨by norm_num, by norm_num, by decide⟩,
   (c5_save_validation [] "s" "c" defaultSections (-1/100) 0).2
      (Or.inl (by norm_num)),
   (c5_save_validation [] "s" "c" defaultSections (1001/100) 0).2
      (Or.inr (Or.inl (by norm_num))),
   (c5_save_validation [] "s" "c" [("sixthSection", "x")] 5 0).2
      (Or.inr (Or.inr (by decide)))⟩

/-! ## Provider resolution (chat relay) -/

/-- The three interchangeable AI backends. -/
inductive Provider where
  | openai
  | anthropic
  | gemini
deriving DecidableEq

/-- Modelled from the spec: process-wide provider configuration read once from
the environment (`backend/server.py` is not among the sources): the optional
explicit `AI_PROVIDER` selection and the three optional credentials. -/
structure ProviderConfig where
  selected : Option Provider
  openaiKey : Option String
  anthropicKey : Option String
  googleKey : Option String

/-- Whether the credential corresponding to a provider is present. -/
def hasCred (c : ProviderConfig) : Provider → Bool
  | .openai => c.openaiKey.isSome
  | .anthropic => c.anthropicKey.isSome
  | .gemini => c.googleKey.isSome

/-- The environment variable holding each provider's credential
(`OPENAI_API_KEY`, `ANTHROPIC_API_KEY`, `GOOGLE_API_KEY` per the README). -/
def keyEnvName : Provider → String
  | .openai => "OPENAI_API_KEY"
  | .anthropic => "ANTHROPIC_API_KEY"
  | .gemini => "GOOGLE_API_KEY"

/-- The fixed credential-scan priority order. -/
def priorityOrder : List Provider := [.openai, .anthropic, .gemini]

/-- The first provider in priority order whose credential is present. -/
def firstWithCred (c : ProviderConfig) : Option Provider :=
  priorityOrder.find? (hasCred c)

/-- A missing-credential configuration failure. -/
structure ConfigurationError where
  message : String
deriving DecidableEq

/-- Modelled from the spec: `ProviderRegistry.resolve` (`backend/server.py` is
not among the sources).  Select the explicitly configured provider when its
credential is present; otherwise scan credentials in the fixed priority order
openai, anthropic, gemini; when no credential is present, fail with
`ConfigurationError` naming the provider that would have been used (the
explicitly configured one, or openai if none is configured). -/
def resolve (c : ProviderConfig) : Except ConfigurationError Provider :=
  match c.selected with
  | some p =>
    if hasCred c p then .ok p
    else
      match firstWithCred c with
      | some q => .ok q
      | none => .error ⟨"Missing " ++ keyEnvName p ++ " in backend environment"⟩
  | none =>
    match firstWithCred c with
    | some q => .ok q
    | none => .error ⟨"Missing " ++ keyEnvName .openai ++ " in backend environment"⟩

/-- **C4**: `resolve` returns the explicitly configured provider when its
credential is present; otherwise the first provider with a credential in the
fixed order openai, anthropic, gemini; with no credential at all it fails with
a `ConfigurationError` naming the explicitly configured provider, or openai
when none is configured.  (The witness instantiates the particular case: only
`ANTHROPIC_API_KEY` set and no explicit provider resolves to anthropic.) -/
theorem c4_provider_resolution (c : ProviderConfig) :
    (∀ p, c.selected = some p → hasCred c p = true → resolve c = .ok p)
    ∧ ((c.selected = none ∨ ∃ p, c.selected = some p ∧ hasCred c p = false) →
        ((hasCred c .openai = true → resolve c = .ok .openai)
         ∧ (hasCred c .openai = false → hasCred c .anthropic = true →
              resolve c = .ok .anthropic)
         ∧ (hasCred c .openai = false → hasCred c .anthropic = false →
              hasCred c .gemini = true → resolve c = .ok .gemini)))
    ∧ (hasCred c .openai = false → hasCred c .anthropic = false →
        hasCred c .gemini = false →
        resolve c = .error
          ⟨"Missing " ++ keyEnvName (c.selected.getD .openai)
            ++ " in backend environment"⟩) := by
  refine ⟨?_, ?_, ?_⟩
  · intro p hp hcred
    simp [resolve, hp, hcred]
  · rintro (hsel | ⟨p, hp, hcred⟩)
    · refine ⟨?_, ?_, ?_⟩ <;> intros <;>
        simp_all [resolve, firstWithCred, priorityOrder, List.find?]
    · refine ⟨?_, ?_, ?_⟩ <;> intros <;>
        simp_all [resolve, firstWithCred, priorityOrder, List.find?]
  · intro h1 h2 h3
    cases hsel : c.selected with
    | none => simp_all [resolve, firstWithCred, priorityOrder, List.find?]
    | some p =>
      have hp : hasCred c p = false := by cases p <;> assumption
      simp_all [resolve, firstWithCred, priorityOrder, List.find?]

/-- Witness for `c4_provider_resolution`: with only `ANTHROPIC_API_KEY`
present and no explicit provider, `resolve` returns anthropic; with no
credential at all it fails naming `OPENAI_API_KEY`. -/
theorem c4_provider_resolution_witness :
    resolve { selected := none, openaiKey := none,
              anthropicKey := some "sk-ant", googleKey := none } = .ok .anthropic
    ∧ resolve { selected := none, openaiKey := none,
                anthropicKey := none, googleKey := none }
        = .error ⟨"Missing OPENAI_API_KEY in backend environment"⟩ :=
  ⟨((c4_provider_resolution _).2.1 (Or.inl rfl)).2.1 rfl rfl,
   (c4_provider_resolution _).2.2 rfl rfl rfl⟩

/-! ## Chat UI (`Chat` component, `frontend/src/App.js`)

The component keeps React state `messages`, `input`, `loading`, `error`.
`sendMessage` is split into the synchronous part that runs before the awaited
POST (`sendMessageStart`, returning the issued request payload if any) and the
continuation that runs when the POST resolves or rejects
(`sendMessageFinish`). -/

/-- JavaScript's `String.prototype.trim`: strip whitespace from both ends
(modelled over the string's character list so that it evaluates). -/
def jsTrim (s : String) : String :=
  ⟨((s.data.dropWhile Char.isWhitespace).reverse.dropWhile Char.isWhitespace).reverse⟩

/-- Chat message roles. -/
inductive Role where
  | user
  | assistant
  | system
deriving DecidableEq

/-- A chat message `{role, content}`. -/
structure ChatMessage where
  role : Role
  content : String
deriving DecidableEq

/-- The `Chat` component's React state. -/
structure ChatState where
  messages : List ChatMessage
  input : String
  loading : Bool
  error : Option String
deriving DecidableEq

/-- The outcome of the awaited `POST /api/chat`: the assistant message of a
200 response, or the error detail extracted from a failure
(`e?.response?.data?.detail || e.message`, e.g. of a 400 or 502 response). -/
inductive ChatResult where
  | success (assistantMsg : ChatMessage)
  | failure (detail : String)
deriving DecidableEq

/-- `sendMessage` up to the awaited POST (`App.js` lines 30-36):
`if (!input.trim() || loading) return;` else append the trimmed input as a
user message, clear the input, set loading, clear the error, and issue the
request with the new message list. -/
def sendMessageStart (s : ChatState) : ChatState × Option (List ChatMessage) :=
  if jsTrim s.input = "" ∨ s.loading then (s, none)
  else
    let newMsgs := s.messages ++ [{ role := .user, content := jsTrim s.input }]
    ({ messages := newMsgs, input := "", loading := true, error := none }, some newMsgs)

/-- `sendMessage` after the awaited POST resolves (`App.js` lines 37-49):
on success replace the messages with the request payload plus the assistant
reply; on failure set only the error detail; in both cases (`finally`)
reset `loading`. -/
def sendMessageFinish (s : ChatState) (newMsgs : List ChatMessage)
    (r : ChatResult) : ChatState :=
  match r with
  | .success m => { s with messages := newMsgs ++ [m], loading := false }
  | .failure d => { s with error := some d, loading := false }

/-- What the chat body renders (`App.js` lines 62-85): a greeting when there
are no messages, one bubble per message, a typing indicator while loading,
and an error element when an error is set. -/
inductive DisplayItem where
  | greeting
  | bubble (role : Role) (content : String)
  | typing
  | errorBox (detail : String)
deriving DecidableEq

/-- The chat body's rendered items, in document order. -/
def render (s : ChatState) : List DisplayItem :=
  (if s.messages.isEmpty then [.greeting] else [])
    ++ s.messages.map (fun m => .bubble m.role m.content)
    ++ (if s.loading then [.typing] else [])
    ++ (match s.error with | some d => [.errorBox d] | none => [])

/-- The send button's disabled condition (`App.js` line 99):
`disabled={loading || !input.trim()}`. -/
def sendDisabled (s : ChatState) : Bool :=
  s.loading || jsTrim s.input == ""

/-- Events driving the chat component: typing into the textarea, invoking
`sendMessage`, and an in-flight request settling. -/
inductive ChatEvent where
  | setInput (value : String)
  | send
  | finish (r : ChatResult)

/-- The chat component together with its in-flight requests (payloads of
issued, unsettled POSTs, oldest first). -/
structure ChatApp where
  ui : ChatState
  pending : List (List ChatMessage)
deriving DecidableEq

/-- One step of the chat component.  A `finish` event settles the oldest
in-flight request and runs `sendMessageFinish` on its payload; with no
request in flight nothing can settle. -/
def chatStep (a : ChatApp) (e : ChatEvent) : ChatApp :=
  match e with
  | .setInput v => { a with ui := { a.ui with input := v } }
  | .send =>
    let p := sendMessageStart a.ui
    { ui := p.1,
      pending := match p.2 with
        | some req => a.pending ++ [req]
        | none => a.pending }
  | .finish r =>
    match a.pending with
    | [] => a
    | req :: rest => { ui := sendMessageFinish a.ui req r, pending := rest }

/-- The chat component's initial state (`useState` initialisers). -/
def initialChat : ChatApp :=
  { ui := { messages := [], input := "", loading := false, error := none },
    pending := [] }

/-- Run the chat component over a sequence of events. -/
def runChat (a : ChatApp) : List ChatEvent → ChatApp
  | [] => a
  | e :: es => runChat (chatStep a e) es

/-- The chat component's in-flight invariant: at most one request is pending,
and `loading` is set exactly while one is. -/
def chatInv (a : ChatApp) : Prop :=
  a.pending.length ≤ 1 ∧ (a.ui.loading = true ↔ a.pending ≠ [])

theorem chatStep_inv (a : ChatApp) (e : ChatEvent) (h : chatInv a) :
    chatInv (chatStep a e) := by
  obtain ⟨h1, h2⟩ := h
  cases e with
  | setInput v => exact ⟨h1, h2⟩
  | send =>
    by_cases hg : jsTrim a.ui.input = "" ∨ a.ui.loading = true
    · simpa [chatStep, sendMessageStart, hg] using ⟨h1, h2⟩
    · push_neg at hg
      have hload : a.ui.loading = false := by simpa using hg.2
      have hpen : a.pending = [] := by
        by_contra hc
        rw [h2.mpr hc] at hload
        exact Bool.noConfusion hload
      simp [chatStep, sendMessageStart, hg.1, hload, chatInv, hpen]
  | finish r =>
    cases hp : a.pending with
    | nil => simpa [chatStep, hp] using ⟨h1, h2⟩
    | cons req rest =>
      have hrest : rest = [] := by
        rw [hp] at h1
        simpa using h1
      cases r <;> simp [chatStep, hp, sendMessageFinish, chatInv, hrest]

theorem runChat_inv (evs : List ChatEvent) (a : ChatApp) (h : chatInv a) :
    chatInv (runChat a evs) := by
  induction evs generalizing a with
  | nil => exact h
  | cons e es ih => exact ih _ (chatStep_inv a e h)

/-- While a request is in flight, invoking `sendMessage` changes nothing. -/
theorem chatStep_send_loading (a : ChatApp) (h : a.ui.loading = true) :
    chatStep a .send = a := by
  simp [chatStep, sendMessageStart, h]

/-- Settling an in-flight request always resets `loading`. -/
theorem chatStep_finish_loading (a : ChatApp) (r : ChatResult)
    (h : a.pending ≠ []) :
    (chatStep a (.finish r)).ui.loading = false := by
  cases hp : a.pending with
  | nil => exact absurd hp h
  | cons req rest => cases r <;> simp [chatStep, hp, sendMessageFinish]

/-- **C9**: from the initial state, after any sequence of events the chat UI
never has two requests in flight at once; `loading` is set exactly while a
request is in flight; while it is set, `sendMessage` is a no-op and the send
button is disabled; and `loading` is reset exactly when the in-flight request
completes or fails. -/
theorem c9_single_flight (evs : List ChatEvent) :
    (runChat initialChat evs).pending.length ≤ 1
    ∧ ((runChat initialChat evs).ui.loading = true
        ↔ (runChat initialChat evs).pending ≠ [])
    ∧ ((runChat initialChat evs).ui.loading = true →
        chatStep (runChat initialChat evs) .send = runChat initialChat evs
        ∧ sendDisabled (runChat initialChat evs).ui = true)
    ∧ (∀ r, (runChat initialChat evs).pending ≠ [] →
        (chatStep (runChat initialChat evs) (.finish r)).ui.loading = false) := by
  have hinv : chatInv (runChat initialChat evs) :=
    runChat_inv evs initialChat (by simp [chatInv, initialChat])
  refine ⟨hinv.1, hinv.2, fun hl => ⟨chatStep_send_loading _ hl, ?_⟩,
    fun r hp => chatStep_finish_loading _ r hp⟩
  simp [sendDisabled, hl]

/-- Witness for `c9_single_flight`: after typing and sending once, a request
is in flight, a second `sendMessage` is a no-op, the button is disabled, and
a failure response resets `loading`. -/
theorem c9_single_flight_witness :
    (runChat initialChat [ChatEvent.setInput "hi", ChatEvent.send]).ui.loading = true
    ∧ chatStep (runChat initialChat [ChatEvent.setInput "hi", ChatEvent.send]) .send
        = runChat initialChat [ChatEvent.setInput "hi", ChatEvent.send]
    ∧ sendDisabled (runChat initialChat [ChatEvent.setInput "hi", ChatEvent.send]).ui
        = true
    ∧ (chatStep (runChat initialChat [ChatEvent.setInput "hi", ChatEvent.send])
        (.finish (.failure "err"))).ui.loading = false := by
  have h := c9_single_flight [ChatEvent.setInput "hi", ChatEvent.send]
  have hl : (runChat initialChat [ChatEvent.setInput "hi", ChatEvent.send]).ui.loading
      = true := by decide
  exact ⟨hl, (h.2.2.1 hl).1, (h.2.2.1 hl).2,
    h.2.2.2 (.failure "err") (h.2.1.mp hl)⟩

/-- **C6**: when the in-flight chat request fails (e.g. a 400 or 502), the
`catch` branch sets the error detail and the `finally` branch resets
`loading`; the displayed message list is left unchanged by the failed request
and the rendered output contains the error detail as a displayable error
element (the transition is total — no crash). -/
theorem c6_failure_displayed (a : ChatApp) (d : String) (h : a.pending ≠ []) :
    (chatStep a (.finish (.failure d))).ui.messages = a.ui.messages
    ∧ (chatStep a (.finish (.failure d))).ui.error = some d
    ∧ (chatStep a (.finish (.failure d))).ui.loading = false
    ∧ DisplayItem.errorBox d ∈ render (chatStep a (.finish (.failure d))).ui := by
  cases hp : a.pending with
  | nil => exact absurd hp h
  | cons req rest =>
    refine ⟨?_, ?_, ?_, ?_⟩ <;>
      simp [chatStep, hp, sendMessageFinish, render]

/-- Witness for `c6_failure_displayed`: a failing request with a 400-style
detail leaves the one displayed message in place and renders the detail. -/
theorem c6_failure_displayed_witness :
    ({ ui := { messages := [{ role := Role.user, content := "hi" }], input := "",
               loading := true, error := none },
       pending := [[{ role := Role.user, content := "hi" }]] } : ChatApp).pending ≠ []
    ∧ ((chatStep
          { ui := { messages := [{ role := Role.user, content := "hi" }], input := "",
                    loading := true, error := none },
            pending := [[{ role := Role.user, content := "hi" }]] }
          (.finish (.failure "Missing OPENAI_API_KEY in backend environment"))).ui.messages
        = [{ role := Role.user, content := "hi" }]
    ∧ (chatStep
          { ui := { messages := [{ role := Role.user, content := "hi" }], input := "",
                    loading := true, error := none },
            pending := [[{ role := Role.user, content := "hi" }]] }
          (.finish (.failure "Missing OPENAI_API_KEY in backend environment"))).ui.error
        = some "Missing OPENAI_API_KEY in backend environment"
    ∧ (chatStep
          { ui := { messages := [{ role := Role.user, content := "hi" }], input := "",
                    loading := true, error := none },
            pending := [[{ role := Role.user, content := "hi" }]] }
          (.finish (.failure "Missing OPENAI_API_KEY in backend environment"))).ui.loading
        = false
    ∧ DisplayItem.errorBox "Missing OPENAI_API_KEY in backend environment"
        ∈ render (chatStep
          { ui := { messages := [{ role := Role.user, content := "hi" }], input := "",
                    loading := true, error := none },
            pending := [[{ role := Role.user, content := "hi" }]] }
          (.finish (.failure "Missing OPENAI_API_KEY in backend environment"))).ui) :=
  ⟨by simp,
   c6_failure_displayed _ "Missing OPENAI_API_KEY in backend environment" (by simp)⟩

/-- **C7, counterexample**: the claim says `sendMessage` issues a request
whenever the input is not empty or whitespace-only; but with a request in
flight (`loading` true) `sendMessage` returns without issuing a request even
though the trimmed input is non-empty. -/
theorem c7_counterexample :
    jsTrim ({ messages := [], input := "hi", loading := true,
              error := none } : ChatState).input ≠ ""
    ∧ (sendMessageStart
        { messages := [], input := "hi", loading := true, error := none }).2 = none :=
  ⟨by decide, by decide⟩

/-- **C7, amended**: `sendMessage` returns without issuing a request when the
input is empty or whitespace-only **or a request is already in flight**;
otherwise it sends the prior conversation with exactly one user message of
non-empty trimmed content appended at the end — hence every chat request the
UI sends has a non-empty messages list in conversation order. -/
theorem c7_send_payload (s : ChatState) :
    ((jsTrim s.input = "" ∨ s.loading = true) → sendMessageStart s = (s, none))
    ∧ (jsTrim s.input ≠ "" → s.loading = false →
        (sendMessageStart s).2
          = some (s.messages ++ [{ role := .user, content := jsTrim s.input }]))
    ∧ (∀ req, (sendMessageStart s).2 = some req →
        req ≠ []
        ∧ req = s.messages ++ [{ role := .user, content := jsTrim s.input }]
        ∧ jsTrim s.input ≠ "") := by
  refine ⟨?_, ?_, ?_⟩
  · intro hg
    simp [sendMessageStart, hg]
  · intro h1 h2
    simp [sendMessageStart, h1, h2]
  · intro req hreq
    by_cases hg : jsTrim s.input = "" ∨ s.loading = true
    · simp [sendMessageStart, hg] at hreq
    · simp only [sendMessageStart, if_neg hg, Option.some.injEq] at hreq
      subst hreq
      exact ⟨by simp, rfl, fun h => hg (Or.inl h)⟩

/-- Witness for `c7_send_payload`: whitespace-only input issues no request;
input `"  hi  "` with no request in flight issues the conversation plus the
trimmed user message. -/
theorem c7_send_payload_witness :
    sendMessageStart { messages := [], input := "   ", loading := false, error := none }
      = ({ messages := [], input := "   ", loading := false, error := none }, none)
    ∧ (sendMessageStart
        { messages := [{ role := Role.assistant, content := "prev" }],
          input := "  hi  ", loading := false, error := none }).2
      = some [{ role := Role.assistant, content := "prev" },
              { role := Role.user, content := "hi" }] :=
  ⟨(c7_send_payload _).1 (Or.inl (by decide)),
   by
    have h := (c7_send_payload
      { messages := [{ role := Role.assistant, content := "prev" }],
        input := "  hi  ", loading := false, error := none }).2.1 (by decide) rfl
    simpa using h⟩

/-! ## Story editor (`StoryEditor` component, `src/unnamed/part_000`)

The component keeps React state `clientId`, `story`, `sections`, `resonance`,
`saving`, `lastSaved`, `error`.  The mount effect establishes the client id
from `localStorage`; the `save` function issues `PUT /api/story/save` and
handles its result. -/

/-- A hexadecimal digit. -/
def isHexDigit (c : Char) : Bool :=
  c.isDigit || ('a' ≤ c && c ≤ 'f') || ('A' ≤ c && c ≤ 'F')

/-- The textual format of `crypto.randomUUID()` output: 36 characters,
hyphens at positions 8, 13, 18 and 23, hexadecimal digits elsewhere. -/
def isUuidFormat (s : String) : Bool :=
  (s.data.length == 36) &&
    (s.data.enum.all fun ic =>
      if ic.1 = 8 ∨ ic.1 = 13 ∨ ic.1 = 18 ∨ ic.1 = 23 then ic.2 == '-'
      else isHexDigit ic.2)

/-- JavaScript's `String.prototype.slice(2)`: drop the first two characters. -/
def jsSlice2 (s : String) : String := ⟨s.data.drop 2⟩

/-- The fresh-id generator in the mount effect (part_000 line 35):
`(crypto && crypto.randomUUID) ? crypto.randomUUID() :
Math.random().toString(36).slice(2)`.  `uuidValue` stands for the value
`crypto.randomUUID()` would return and `randFloatBase36` for the base-36
rendering of the random float. -/
def generateClientId (cryptoAvailable : Bool)
    (uuidValue randFloatBase36 : String) : String :=
  if cryptoAvailable then uuidValue else jsSlice2 randFloatBase36

/-- The mount effect (part_000 lines 32-39): read `localStorage.client_id`;
when absent — or empty, since JS `!cid` also holds for the empty string —
store a freshly generated id; return the client id used and the resulting
storage content. -/
def mountClientId (stored : Option String) (fresh : String) :
    String × Option String :=
  match stored with
  | some cid => if cid = "" then (fresh, some fresh) else (cid, some cid)
  | none => (fresh, some fresh)

/-- The payload of `PUT /api/story/save` (part_000 lines 60-65). -/
structure SaveRequest where
  storyId : String
  clientId : String
  sections : SectionsMap
  resonanceScore : ℚ
deriving DecidableEq

/-- The `StoryEditor` component's React state. -/
structure EditorState where
  clientId : String
  story : Option StoryDocument
  sections : SectionsMap
  resonance : ℚ
  saving : Bool
  lastSaved : Option Nat
  error : Option String
deriving DecidableEq

/-- The editor state right after the mount effect set the client id
(the other fields at their `useState` initialisers). -/
def mountedEditor (cid : String) : EditorState :=
  { clientId := cid, story := none, sections := defaultSections, resonance := 5,
    saving := false, lastSaved := none, error := none }

/-- The `POST /api/story/init` payload: issued with the state's client id once
it is set (`if (!clientId) return;`, part_000 line 42). -/
def initRequest (s : EditorState) : Option String :=
  if s.clientId = "" then none else some s.clientId

/-- JS object spread `{ ...sections, [key]: value }`: override an existing
key in place, or append a new one. -/
def setSection (sections : SectionsMap) (key value : String) : SectionsMap :=
  if sections.any (fun kv => kv.1 == key)
  then sections.map (fun kv => if kv.1 == key then (key, value) else kv)
  else sections ++ [(key, value)]

/-- Events driving the story editor: typing into a section, moving the
resonance slider, the debounced save firing with the captured next state, the
save request settling, and the init request settling. -/
inductive EditorEvent where
  | edit (key : String) (value : String)
  | resChange (v : ℚ)
  | saveAttempt (sections : SectionsMap) (resonance : ℚ)
  | saveResult (r : Except String StoryDocument) (now : Nat)
  | initResult (r : Except String StoryDocument)

/-- One step of the story editor, returning the save requests it issues.
`saveAttempt` models `save(next)` up to the awaited PUT: no request before
init completed (`if (!story) return;`), else `saving := true`, clear the
error and issue the payload.  `saveResult` models the continuation: on
success store the returned document and stamp `lastSaved`; on failure set
only the error detail; in both cases (`finally`) reset `saving`.
`initResult` models the init continuation. -/
def editorStep (s : EditorState) (e : EditorEvent) :
    EditorState × List SaveRequest :=
  match e with
  | .edit key value => ({ s with sections := setSection s.sections key value }, [])
  | .resChange v => ({ s with resonance := v }, [])
  | .saveAttempt sections resonance =>
    match s.story with
    | none => (s, [])
    | some st =>
      ({ s with saving := true, error := none },
       [{ storyId := st.storyId, clientId := s.clientId,
          sections := sections, resonanceScore := resonance }])
  | .saveResult r now =>
    match r with
    | .ok d => ({ s with story := some d, lastSaved := some now, saving := false }, [])
    | .error err => ({ s with error := some err, saving := false }, [])
  | .initResult r =>
    match r with
    | .ok d =>
      ({ s with story := some d, sections := d.sections,
                resonance := d.resonanceScore }, [])
    | .error err => ({ s with error := some err }, [])

/-- Run the story editor over a sequence of events, collecting every save
request it issues. -/
def runEditor (s : EditorState) : List EditorEvent → EditorState × List SaveRequest
  | [] => (s, [])
  | e :: es =>
    let p := editorStep s e
    let q := runEditor p.1 es
    (q.1, p.2 ++ q.2)

theorem editorStep_clientId (s : EditorState) (e : EditorEvent) :
    (editorStep s e).1.clientId = s.clientId
    ∧ ∀ req ∈ (editorStep s e).2, req.clientId = s.clientId := by
  cases e with
  | edit key value => simp [editorStep]
  | resChange v => simp [editorStep]
  | saveAttempt sections resonance =>
    cases hs : s.story <;> simp [editorStep, hs]
  | saveResult r now => cases r <;> simp [editorStep]
  | initResult r => cases r <;> simp [editorStep]

theorem runEditor_clientId (evs : List EditorEvent) (s : EditorState) :
    (runEditor s evs).1.clientId = s.clientId
    ∧ ∀ req ∈ (runEditor s evs).2, req.clientId = s.clientId := by
  induction evs generalizing s with
  | nil => simp [runEditor]
  | cons e es ih =>
    obtain ⟨h1, h2⟩ := editorStep_clientId s e
    obtain ⟨h3, h4⟩ := ih (editorStep s e).1
    refine ⟨by simp [runEditor, h3, h1], ?_⟩
    intro req hreq
    simp only [runEditor, List.mem_append] at hreq
    rcases hreq with hreq | hreq
    · exact h2 req hreq
    · rw [h4 req hreq, h1]

/-- **C8, counterexample**: the claim says the clientId the story editor
supplies is a UUID; but in a browser without `crypto.randomUUID` the fallback
`Math.random().toString(36).slice(2)` produces a value (here from the base-36
rendering `"0.k2w5u8"`) that the mount effect adopts and persists although it
is not in UUID format. -/
theorem c8_counterexample :
    mountClientId none (generateClientId false "unused" "0.k2w5u8")
      = ("k2w5u8", some "k2w5u8")
    ∧ isUuidFormat "k2w5u8" = false :=
  ⟨by decide, by decide⟩

/-- **C8, amended**: the clientId the story editor supplies is a stable
per-browser identifier — the `crypto.randomUUID()` value when that API is
available, otherwise a random base-36 string (not a UUID): an id already in
localStorage is reused and the generator's output ignored (generated at most
once); the id used is always the one persisted; remounting with the persisted
storage yields the same id and storage; and that id is the one sent in the
init request and in every save request the editor ever issues. -/
theorem c8_client_id_stable (stored : Option String) (fresh fresh' cid : String)
    (evs : List EditorEvent) :
    (∀ c, stored = some c → c ≠ "" → mountClientId stored fresh = (c, some c))
    ∧ (mountClientId stored fresh).2 = some (mountClientId stored fresh).1
    ∧ ((mountClientId stored fresh).1 ≠ "" →
        mountClientId (mountClientId stored fresh).2 fresh'
          = ((mountClientId stored fresh).1, (mountClientId stored fresh).2))
    ∧ (cid ≠ "" → initRequest (mountedEditor cid) = some cid)
    ∧ (runEditor (mountedEditor cid) evs).1.clientId = cid
    ∧ (∀ req ∈ (runEditor (mountedEditor cid) evs).2, req.clientId = cid) := by
  obtain ⟨h1, h2⟩ := runEditor_clientId evs (mountedEditor cid)
  refine ⟨?_, ?_, ?_, ?_, h1, h2⟩
  · intro c hc hne
    subst hc
    simp [mountClientId, hne]
  · cases stored with
    | none => rfl
    | some c =>
      by_cases hc : c = "" <;> simp [mountClientId, hc]
  · intro hne
    cases stored with
    | none => simpa [mountClientId] using fun h => absurd h hne
    | some c =>
      by_cases hc : c = ""
      · subst hc
        have hf : fresh ≠ "" := by simpa [mountClientId] using hne
        simp [mountClientId, hf]
      · simp [mountClientId, hc]
  · intro hne
    simp [initRequest, mountedEditor, hne]

/-- Concrete event sequence for the `c8_client_id_stable` witness: init
completes, the debounced save fires, the save fails. -/
def c8evs : List EditorEvent :=
  [.initResult (.ok ((StoryStore.initOrFetch [] "abc" "story-1" 0).2)),
   .saveAttempt defaultSections 6,
   .saveResult (.error "network error") 0]

/-- Witness for `c8_client_id_stable`: a stored id `"abc"` is reused and kept,
and over a session that inits, saves and fails, the one save request issued
carries clientId `"abc"`. -/
theorem c8_client_id_stable_witness :
    mountClientId (some "abc") "fresh" = ("abc", some "abc")
    ∧ initRequest (mountedEditor "abc") = some "abc"
    ∧ (runEditor (mountedEditor "abc") c8evs).1.clientId = "abc"
    ∧ (∀ req ∈ (runEditor (mountedEditor "abc") c8evs).2, req.clientId = "abc") := by
  have h := c8_client_id_stable (some "abc") "fresh" "other" "abc" c8evs
  exact ⟨h.1 "abc" rfl (by decide), h.2.2.2.1 (by decide),
    h.2.2.2.2.1, h.2.2.2.2.2⟩

/-- **C10**: no save request is issued before init has completed (`story`
still `none`); a failed save response changes neither the stored story
document nor `lastSaved` (nor the edited sections or resonance), setting only
the error message (and resetting the saving flag); a successful save response
is what stores the returned document and stamps `lastSaved`. -/
theorem c10_save_failure_preserves (s : EditorState) :
    (s.story = none → ∀ secs r, editorStep s (.saveAttempt secs r) = (s, []))
    ∧ (∀ err now,
        (editorStep s (.saveResult (.error err) now)).1.story = s.story
        ∧ (editorStep s (.saveResult (.error err) now)).1.lastSaved = s.lastSaved
        ∧ (editorStep s (.saveResult (.error err) now)).1.sections = s.sections
        ∧ (editorStep s (.saveResult (.error err) now)).1.resonance = s.resonance
        ∧ (editorStep s (.saveResult (.error err) now)).1.error = some err
        ∧ (editorStep s (.saveResult (.error err) now)).1.saving = false
        ∧ (editorStep s (.saveResult (.error err) now)).2 = [])
    ∧ (∀ d now,
        (editorStep s (.saveResult (.ok d) now)).1.story = some d
        ∧ (editorStep s (.saveResult (.ok d) now)).1.lastSaved = some now) := by
  refine ⟨?_, ?_, ?_⟩
  · intro h secs r
    simp [editorStep, h]
  · intro err now
    simp [editorStep]
  · intro d now
    simp [editorStep]

/-- Witness for `c10_save_failure_preserves` at the freshly mounted editor
(story not yet initialised) and at a state with a stored story. -/
theorem c10_save_failure_preserves_witness :
    editorStep (mountedEditor "abc") (.saveAttempt defaultSections 6)
      = (mountedEditor "abc", [])
    ∧ (editorStep (mountedEditor "abc")
        (.saveResult (.error "save failed") 9)).1.story = (mountedEditor "abc").story
    ∧ (editorStep (mountedEditor "abc")
        (.saveResult (.error "save failed") 9)).1.lastSaved
        = (mountedEditor "abc").lastSaved
    ∧ (editorStep (mountedEditor "abc")
        (.saveResult (.error "save failed") 9)).1.error = some "save failed" := by
  have h := c10_save_failure_preserves (mountedEditor "abc")
  exact ⟨h.1 rfl defaultSections 6, (h.2.1 "save failed" 9).1,
    (h.2.1 "save failed" 9).2.1, (h.2.1 "save failed" 9).2.2.2.2.1⟩
